import Mathlib

/-!
Verification of the reporting layer of the `native_locator` crate
(`src/native_locator/src/messaging.rs`): the envelope model, the
identity-key derivation, the dedup dispatcher and the wire framer.

Operating-system path values (`PathBuf` / `OsStr`) are modelled by the
inductive `OsPath`: a path is either representable as UTF-8 text
(`OsPath.utf8 s`, where `to_str` yields `some s`) or not
(`OsPath.nonUtf8 i`, where `to_str` yields `none`).  `HashSet<String>`
is modelled as a `List String` with membership-guarded insertion.
Functions that may panic in Rust (`Option::unwrap` on `None`) are
modelled in the `Except Unit` monad, `Except.error ()` standing for the
panic.  Emitting a message on the wire is modelled by returning the
emitted `Envelope` values alongside the new dispatcher state.
-/

namespace NativeLocator

/-- A filesystem path as the operating system stores it: either valid
UTF-8 text or a byte sequence with no textual representation. -/
inductive OsPath where
  | utf8 (s : String)
  | nonUtf8 (id : Nat)
deriving DecidableEq

/-- Rust's `OsStr::to_str` / `Path::to_str`: the UTF-8 text of the path,
if it has one. -/
def OsPath.to_str : OsPath → Option String
  | OsPath.utf8 s => some s
  | OsPath.nonUtf8 _ => none

/-- `enum EnvManagerType { Conda, Pyenv }`. -/
inductive EnvManagerType where
  | Conda
  | Pyenv
deriving DecidableEq

/-- `struct EnvManager { executable_path, version, tool }`. -/
structure EnvManager where
  executable_path : OsPath
  version : Option String
  tool : EnvManagerType
deriving DecidableEq

/-- `enum PythonEnvironmentCategory` with its eleven variants. -/
inductive PythonEnvironmentCategory where
  | System
  | Homebrew
  | Conda
  | Pyenv
  | PyenvVirtualEnv
  | WindowsStore
  | WindowsRegistry
  | Pipenv
  | VirtualEnvWrapper
  | Venv
  | VirtualEnv
deriving DecidableEq

/-- `struct PythonEnvironment` with its nine fields, in declaration
order. -/
structure PythonEnvironment where
  name : Option String
  python_executable_path : Option OsPath
  category : PythonEnvironmentCategory
  version : Option String
  env_path : Option OsPath
  sys_prefix_path : Option OsPath
  env_manager : Option EnvManager
  python_run_command : Option (List String)
  project_path : Option OsPath
deriving DecidableEq

/-- Modelled from the spec: the discovery-side probe value (`PythonEnv`
from the `utils` module, whose source is outside this file) carries at
minimum an executable path; only that field is consulted by
`was_environment_reported`. -/
structure PythonEnv where
  executable : OsPath
deriving DecidableEq

/-- `struct JsonRpcDispatcher { reported_managers, reported_environments }`,
the two `HashSet<String>` dedup key sets modelled as lists. -/
structure JsonRpcDispatcher where
  reported_managers : List String
  reported_environments : List String
deriving DecidableEq

/-- `HashSet::insert` on the list model: adds the key when absent. -/
def hashSetInsert (s : List String) (k : String) : List String :=
  if k ∈ s then s else k :: s

/-- One emitted wire message, identified by its typed payload:
`EnvManagerMessage`, `PythonEnvironmentMessage` or `ExitMessage`. -/
inductive Envelope where
  | managerMsg (m : EnvManager)
  | environmentMsg (e : PythonEnvironment)
  | exitMsg
deriving DecidableEq

/-- `get_manager_key`: `Some(manager.executable_path.to_str()?.to_string())`. -/
def get_manager_key (manager : EnvManager) : Option String :=
  manager.executable_path.to_str

/-- `get_environment_key`.  The interpreter-path branch uses `?` (a
non-UTF-8 path makes the whole function return `None`); the
environment-root branch uses `.unwrap()`, which panics on a non-UTF-8
path — modelled as `Except.error ()`. -/
def get_environment_key (env : PythonEnvironment) :
    Except Unit (Option String) :=
  match env.python_executable_path with
  | some key =>
    match key.to_str with
    | some s => Except.ok (some s)
    | none => Except.ok none
  | none =>
    match env.env_path with
    | some key =>
      match key.to_str with
      | some s => Except.ok (some s)
      | none => Except.error ()
    | none => Except.ok none

/-- `create_dispatcher`: both key sets empty. -/
def create_dispatcher : JsonRpcDispatcher :=
  { reported_managers := [], reported_environments := [] }

/-- `was_environment_reported`: pure lookup of the probe's executable
path text in the environment key set; `false` when the path has no
UTF-8 text. -/
def was_environment_reported (d : JsonRpcDispatcher) (env : PythonEnv) :
    Bool :=
  match env.executable.to_str with
  | some key => decide (key ∈ d.reported_environments)
  | none => false

/-- `report_environment_manager`: derive the key; when present and not
yet seen, insert it and emit one manager envelope; otherwise do
nothing. -/
def report_environment_manager (d : JsonRpcDispatcher) (env : EnvManager) :
    JsonRpcDispatcher × List Envelope :=
  match get_manager_key env with
  | some key =>
    if key ∈ d.reported_managers then (d, [])
    else ({ d with reported_managers := hashSetInsert d.reported_managers key },
          [Envelope.managerMsg env])
  | none => (d, [])

/-- `report_environment`: derive the key (propagating the panic of
`get_environment_key`); when present, emit an environment envelope on
first sight of the key, and in either case forward the owning manager,
when set, to `report_environment_manager`. -/
def report_environment (d : JsonRpcDispatcher) (env : PythonEnvironment) :
    Except Unit (JsonRpcDispatcher × List Envelope) :=
  match get_environment_key env with
  | Except.error _ => Except.error ()
  | Except.ok none => Except.ok (d, [])
  | Except.ok (some key) =>
    let step1 : JsonRpcDispatcher × List Envelope :=
      if key ∈ d.reported_environments then (d, [])
      else ({ d with
                reported_environments :=
                  hashSetInsert d.reported_environments key },
            [Envelope.environmentMsg env])
    match env.env_manager with
    | some manager =>
      let step2 := report_environment_manager step1.1 manager
      Except.ok (step2.1, step1.2 ++ step2.2)
    | none => Except.ok step1

/-- `exit`: emit one exit envelope, unconditionally, touching no state. -/
def exit (d : JsonRpcDispatcher) : JsonRpcDispatcher × List Envelope :=
  (d, [Envelope.exitMsg])

/-- Whether an envelope is an environment report. -/
def isEnvironmentMsg : Envelope → Bool
  | Envelope.environmentMsg _ => true
  | _ => false

/-- Whether an envelope is a manager report. -/
def isManagerMsg : Envelope → Bool
  | Envelope.managerMsg _ => true
  | _ => false

/-- Whether an envelope is a manager report whose identity key is `k`. -/
def isManagerKeyMsg (k : String) : Envelope → Bool
  | Envelope.managerMsg m => decide (get_manager_key m = some k)
  | _ => false

/-- Number of environment envelopes in an emission trace. -/
def countEnvironmentMsgs (l : List Envelope) : Nat :=
  l.countP isEnvironmentMsg

/-- Number of manager envelopes in an emission trace. -/
def countManagerMsgs (l : List Envelope) : Nat :=
  l.countP isManagerMsg

/-- Number of manager envelopes for identity key `k` in a trace. -/
def countManagerKeyMsgs (k : String) (l : List Envelope) : Nat :=
  l.countP (isManagerKeyMsg k)

/-- A sequence of `report_environment_manager` calls, collecting the
emitted envelopes in order. -/
def runManagers (d : JsonRpcDispatcher) :
    List EnvManager → JsonRpcDispatcher × List Envelope
  | [] => (d, [])
  | m :: ms =>
    let step1 := report_environment_manager d m
    let rest := runManagers step1.1 ms
    (rest.1, step1.2 ++ rest.2)

/-- A concrete conda manager used as a sample input. -/
def sampleManager : EnvManager :=
  { executable_path := OsPath.utf8 "/usr/bin/conda",
    version := none,
    tool := EnvManagerType.Conda }

/-- The same manager location with a different version: equal identity. -/
def sampleManagerVariant : EnvManager :=
  { executable_path := OsPath.utf8 "/usr/bin/conda",
    version := some "23.1.0",
    tool := EnvManagerType.Conda }

/-- A concrete environment with a representable interpreter path and an
owning manager. -/
def sampleEnv : PythonEnvironment :=
  { name := none,
    python_executable_path := some (OsPath.utf8 "/opt/env/bin/python"),
    category := PythonEnvironmentCategory.Conda,
    version := none,
    env_path := none,
    sys_prefix_path := none,
    env_manager := some sampleManager,
    python_run_command := none,
    project_path := none }

/-- An environment whose interpreter path is unset and whose environment
root is present but not UTF-8-representable; it also carries an owning
manager. -/
def c1FailingEnv : PythonEnvironment :=
  { name := none,
    python_executable_path := none,
    category := PythonEnvironmentCategory.Venv,
    version := none,
    env_path := some (OsPath.nonUtf8 0),
    sys_prefix_path := none,
    env_manager := some sampleManager,
    python_run_command := none,
    project_path := none }

/-- An environment with both identity paths unset but a manager set. -/
def c7Env : PythonEnvironment :=
  { name := some "keyless",
    python_executable_path := none,
    category := PythonEnvironmentCategory.System,
    version := none,
    env_path := none,
    sys_prefix_path := none,
    env_manager := some sampleManager,
    python_run_command := none,
    project_path := none }

/-- An environment whose interpreter path is present but not
UTF-8-representable, while its environment root is representable. -/
def c10Env : PythonEnvironment :=
  { name := none,
    python_executable_path := some (OsPath.nonUtf8 7),
    category := PythonEnvironmentCategory.Venv,
    version := none,
    env_path := some (OsPath.utf8 "/opt/env"),
    sys_prefix_path := none,
    env_manager := some sampleManager,
    python_run_command := none,
    project_path := none }

/-! ## Serialization: the body text `serde_json::to_string` produces

The derived `Serialize` implementations emit every struct field in
declaration order under its `camelCase` name; an `Option` that is `None`
is emitted as `null` (no `skip_serializing_if` attribute is present);
unit enum variants are emitted as their `camelCase` name in quotes; a
`PathBuf` serializes as a JSON string of its UTF-8 text and is a
serialization error when the path is not UTF-8 (`send_message` then
panics on `unwrap`), modelled by an `Option String` result. -/

/-- One hexadecimal digit, lowercase, as serde uses for `\u00XX`. -/
def hexDigit (n : Nat) : Char :=
  if n < 10 then Char.ofNat (48 + n) else Char.ofNat (87 + n)

/-- serde's escaping of one character inside a JSON string: quote,
backslash, the short control escapes, `\u00XX` for other control
characters, and everything else (non-ASCII included) verbatim. -/
def jsonEscapeChar (c : Char) : String :=
  if c = Char.ofNat 34 then "\\\""
  else if c = Char.ofNat 92 then "\\\\"
  else if c = Char.ofNat 8 then "\\b"
  else if c = Char.ofNat 9 then "\\t"
  else if c = Char.ofNat 10 then "\\n"
  else if c = Char.ofNat 12 then "\\f"
  else if c = Char.ofNat 13 then "\\r"
  else if c.toNat < 32 then
    "\\u00" ++ String.singleton (hexDigit (c.toNat / 16)) ++
      String.singleton (hexDigit (c.toNat % 16))
  else String.singleton c

/-- Escape a whole string for inclusion in a JSON string literal. -/
def jsonEscape (s : String) : String :=
  s.data.foldl (fun acc c => acc ++ jsonEscapeChar c) ""

/-- A JSON string literal. -/
def jsonStr (s : String) : String := "\"" ++ jsonEscape s ++ "\""

/-- `Option<String>` field value: `null` when absent. -/
def serializeOptStr : Option String → String
  | none => "null"
  | some s => jsonStr s

/-- A `PathBuf` value: a JSON string, or a serialization error for a
non-UTF-8 path. -/
def serializePath (p : OsPath) : Option String :=
  p.to_str.map jsonStr

/-- `Option<PathBuf>` field value: `null` when absent. -/
def serializeOptPath : Option OsPath → Option String
  | none => some "null"
  | some p => serializePath p

/-- `EnvManagerType` under `rename_all = "camelCase"`. -/
def serializeTool : EnvManagerType → String
  | EnvManagerType.Conda => "\"conda\""
  | EnvManagerType.Pyenv => "\"pyenv\""

/-- `PythonEnvironmentCategory` under `rename_all = "camelCase"`. -/
def serializeCategory : PythonEnvironmentCategory → String
  | PythonEnvironmentCategory.System => "\"system\""
  | PythonEnvironmentCategory.Homebrew => "\"homebrew\""
  | PythonEnvironmentCategory.Conda => "\"conda\""
  | PythonEnvironmentCategory.Pyenv => "\"pyenv\""
  | PythonEnvironmentCategory.PyenvVirtualEnv => "\"pyenvVirtualEnv\""
  | PythonEnvironmentCategory.WindowsStore => "\"windowsStore\""
  | PythonEnvironmentCategory.WindowsRegistry => "\"windowsRegistry\""
  | PythonEnvironmentCategory.Pipenv => "\"pipenv\""
  | PythonEnvironmentCategory.VirtualEnvWrapper => "\"virtualEnvWrapper\""
  | PythonEnvironmentCategory.Venv => "\"venv\""
  | PythonEnvironmentCategory.VirtualEnv => "\"virtualEnv\""

/-- `Vec<String>` as a JSON array. -/
def serializeStrList (l : List String) : String :=
  "[" ++ String.intercalate "," (l.map jsonStr) ++ "]"

/-- `Option<Vec<String>>` field value: `null` when absent. -/
def serializeOptStrList : Option (List String) → String
  | none => "null"
  | some l => serializeStrList l

/-- The body of `EnvManager` in field declaration order. -/
def serializeEnvManager (m : EnvManager) : Option String :=
  (m.executable_path.to_str).map (fun p =>
    "\x7b\"executablePath\":" ++ jsonStr p ++ ",\"version\":" ++
      serializeOptStr m.version ++ ",\"tool\":" ++ serializeTool m.tool ++
      "\x7d")

/-- `Option<EnvManager>` field value: `null` when absent. -/
def serializeOptEnvManager : Option EnvManager → Option String
  | none => some "null"
  | some m => serializeEnvManager m

/-- The body of `PythonEnvironment` in field declaration order. -/
def serializePythonEnvironment (e : PythonEnvironment) : Option String :=
  match serializeOptPath e.python_executable_path,
      serializeOptPath e.env_path, serializeOptPath e.sys_prefix_path,
      serializeOptEnvManager e.env_manager,
      serializeOptPath e.project_path with
  | some pep, some ep, some spp, some em, some pp =>
    some ("\x7b\"name\":" ++ serializeOptStr e.name ++
      ",\"pythonExecutablePath\":" ++ pep ++
      ",\"category\":" ++ serializeCategory e.category ++
      ",\"version\":" ++ serializeOptStr e.version ++
      ",\"envPath\":" ++ ep ++
      ",\"sysPrefixPath\":" ++ spp ++
      ",\"envManager\":" ++ em ++
      ",\"pythonRunCommand\":" ++ serializeOptStrList e.python_run_command ++
      ",\"projectPath\":" ++ pp ++ "\x7d")
  | _, _, _, _, _ => none

/-- The serialized `EnvManagerMessage` envelope body. -/
def serializeEnvManagerMessage (m : EnvManager) : Option String :=
  (serializeEnvManager m).map (fun p =>
    "\x7b\"jsonrpc\":\"2.0\",\"method\":\"envManager\",\"params\":" ++ p ++
      "\x7d")

/-- The serialized `PythonEnvironmentMessage` envelope body. -/
def serializePythonEnvironmentMessage (e : PythonEnvironment) :
    Option String :=
  (serializePythonEnvironment e).map (fun p =>
    "\x7b\"jsonrpc\":\"2.0\",\"method\":\"pythonEnvironment\",\"params\":" ++
      p ++ "\x7d")

/-- The serialized `ExitMessage` envelope body:
`ExitMessage::new()` has `jsonrpc = "2.0"`, `method = "exit"`,
`params = None : Option<()>`, and `None` serializes as `null`. -/
def serializeExitMessage : String :=
  "\x7b\"jsonrpc\":\"2.0\",\"method\":\"exit\",\"params\":null\x7d"

/-- Decidable prefix test on character lists. -/
def listIsPrefix : List Char → List Char → Bool
  | [], _ => true
  | _ :: _, [] => false
  | a :: as, b :: bs => a == b && listIsPrefix as bs

/-- Decidable substring test on character lists. -/
def listContainsSub : List Char → List Char → Bool
  | pat, [] => listIsPrefix pat []
  | pat, c :: cs => listIsPrefix pat (c :: cs) || listContainsSub pat cs

/-- Whether `pat` occurs as a contiguous substring of `s`. -/
def containsSubstring (s pat : String) : Bool :=
  listContainsSub pat.data s.data

/-! ## The wire framer (`send_message`) -/

/-- One frame as `send_message` prints it: the declared content length
(`message.len()`, the byte length of the serialized body) and the body
itself. -/
structure Frame where
  declared : Nat
  body : String
deriving DecidableEq

/-- `send_message` on an already-serialized body: the `print!` writes
`Content-Length: {}` with `message.len()` — the UTF-8 byte length of
the Rust `String` — followed by the fixed header rest and the body. -/
def send_message (serialized : String) : Frame :=
  { declared := serialized.utf8ByteSize, body := serialized }

/-- The full text written to the channel for a frame. -/
def Frame.render (f : Frame) : String :=
  "Content-Length: " ++ toString f.declared ++
    "\r\nContent-Type: application/vscode-jsonrpc; charset=utf-8\r\n\r\n" ++
    f.body

/-! ## A reference UTF-8 encoder, independent of `String.utf8ByteSize` -/

/-- The UTF-8 encoding of one character as a byte list. -/
def utf8EncodeChar (c : Char) : List Nat :=
  if c.toNat ≤ 0x7F then [c.toNat]
  else if c.toNat ≤ 0x7FF then
    [0xC0 + c.toNat / 64, 0x80 + c.toNat % 64]
  else if c.toNat ≤ 0xFFFF then
    [0xE0 + c.toNat / 4096, 0x80 + c.toNat / 64 % 64, 0x80 + c.toNat % 64]
  else
    [0xF0 + c.toNat / 262144, 0x80 + c.toNat / 4096 % 64,
     0x80 + c.toNat / 64 % 64, 0x80 + c.toNat % 64]

/-- The UTF-8 encoding of a string as a byte list. -/
def utf8Encode (s : String) : List Nat :=
  s.data.foldr (fun c acc => utf8EncodeChar c ++ acc) []

/-- The dispatcher state after reporting `sampleEnv` from the fresh
dispatcher: both identity keys recorded. -/
def c8State : JsonRpcDispatcher :=
  { reported_managers := ["/usr/bin/conda"],
    reported_environments := ["/opt/env/bin/python"] }

/-- The trace emitted by reporting `sampleEnv` from the fresh
dispatcher. -/
def c8Msgs : List Envelope :=
  [Envelope.environmentMsg sampleEnv, Envelope.managerMsg sampleManager]

/-! ## Helper lemmas about the dispatcher -/

theorem mem_hashSetInsert {s : List String} {a k : String} :
    a ∈ hashSetInsert s k ↔ a = k ∨ a ∈ s := by
  unfold hashSetInsert
  split
  · constructor
    · exact fun h => Or.inr h
    · rintro (rfl | h)
      · assumption
      · assumption
  · exact List.mem_cons

theorem subset_hashSetInsert (s : List String) (k : String) :
    s ⊆ hashSetInsert s k :=
  fun _ h => mem_hashSetInsert.mpr (Or.inr h)

theorem mem_hashSetInsert_self (s : List String) (k : String) :
    k ∈ hashSetInsert s k :=
  mem_hashSetInsert.mpr (Or.inl rfl)

theorem report_manager_key_none {d : JsonRpcDispatcher} {m : EnvManager}
    (h : get_manager_key m = none) :
    report_environment_manager d m = (d, []) := by
  simp [report_environment_manager, h]

theorem report_manager_key_seen {d : JsonRpcDispatcher} {m : EnvManager}
    {k : String} (h : get_manager_key m = some k)
    (hm : k ∈ d.reported_managers) :
    report_environment_manager d m = (d, []) := by
  simp [report_environment_manager, h, hm]

theorem report_manager_key_new {d : JsonRpcDispatcher} {m : EnvManager}
    {k : String} (h : get_manager_key m = some k)
    (hm : k ∉ d.reported_managers) :
    report_environment_manager d m =
      ({ d with reported_managers := hashSetInsert d.reported_managers k },
       [Envelope.managerMsg m]) := by
  simp [report_environment_manager, h, hm]

theorem report_manager_envs_eq (d : JsonRpcDispatcher) (m : EnvManager) :
    (report_environment_manager d m).1.reported_environments =
      d.reported_environments := by
  unfold report_environment_manager
  split
  · split <;> rfl
  · rfl

theorem report_manager_mgrs_subset (d : JsonRpcDispatcher) (m : EnvManager) :
    d.reported_managers ⊆
      (report_environment_manager d m).1.reported_managers := by
  unfold report_environment_manager
  split
  · split
    · exact fun _ h => h
    · exact subset_hashSetInsert _ _
  · exact fun _ h => h

theorem report_environment_ok_cases {d : JsonRpcDispatcher}
    {env : PythonEnvironment} {d1 : JsonRpcDispatcher} {msgs : List Envelope}
    (h : report_environment d env = Except.ok (d1, msgs)) :
    (get_environment_key env = Except.ok none ∧ d1 = d ∧ msgs = []) ∨
      ∃ k, get_environment_key env = Except.ok (some k) := by
  unfold report_environment at h
  revert h
  match hk : get_environment_key env with
  | Except.error e => intro h; cases h
  | Except.ok none =>
    intro h
    refine Or.inl ⟨rfl, ?_, ?_⟩
    · cases h; rfl
    · cases h; rfl
  | Except.ok (some k) => intro _; exact Or.inr ⟨k, rfl⟩

theorem report_environment_monotone {d : JsonRpcDispatcher}
    {env : PythonEnvironment} {d1 : JsonRpcDispatcher} {msgs : List Envelope}
    (h : report_environment d env = Except.ok (d1, msgs)) :
    d.reported_managers ⊆ d1.reported_managers ∧
      d.reported_environments ⊆ d1.reported_environments := by
  unfold report_environment at h
  revert h
  match hk : get_environment_key env with
  | Except.error e => intro h; cases h
  | Except.ok none =>
    intro h
    cases h
    exact ⟨fun _ h => h, fun _ h => h⟩
  | Except.ok (some k) =>
    cases hm : env.env_manager with
    | none =>
      intro h
      simp only [hm] at h
      by_cases hk2 : k ∈ d.reported_environments
      · simp only [if_pos hk2] at h
        cases h
        exact ⟨fun _ h => h, fun _ h => h⟩
      · simp only [if_neg hk2] at h
        cases h
        exact ⟨fun _ h => h, subset_hashSetInsert _ _⟩
    | some manager =>
      intro h
      simp only [hm] at h
      by_cases hk2 : k ∈ d.reported_environments
      · simp only [if_pos hk2] at h
        cases h
        refine ⟨report_manager_mgrs_subset d manager, ?_⟩
        rw [report_manager_envs_eq]
        exact fun _ h => h
      · simp only [if_neg hk2] at h
        cases h
        constructor
        · exact report_manager_mgrs_subset
            { d with reported_environments :=
                hashSetInsert d.reported_environments k } manager
        · rw [report_manager_envs_eq]
          exact subset_hashSetInsert _ _

theorem report_environment_key_recorded {d : JsonRpcDispatcher}
    {env : PythonEnvironment} {k : String} {d1 : JsonRpcDispatcher}
    {msgs : List Envelope}
    (hk : get_environment_key env = Except.ok (some k))
    (h : report_environment d env = Except.ok (d1, msgs)) :
    k ∈ d1.reported_environments := by
  unfold report_environment at h
  rw [hk] at h
  revert h
  cases hm : env.env_manager with
  | none =>
    intro h
    by_cases hk2 : k ∈ d.reported_environments
    · simp only [if_pos hk2] at h
      cases h
      exact hk2
    · simp only [if_neg hk2] at h
      cases h
      exact mem_hashSetInsert_self _ _
  | some manager =>
    intro h
    by_cases hk2 : k ∈ d.reported_environments
    · simp only [if_pos hk2] at h
      cases h
      rw [report_manager_envs_eq]
      exact hk2
    · simp only [if_neg hk2] at h
      cases h
      rw [report_manager_envs_eq]
      exact mem_hashSetInsert_self _ _

theorem report_environment_new_key_with_manager {d : JsonRpcDispatcher}
    {env : PythonEnvironment} {k : String} {m : EnvManager}
    (hk : get_environment_key env = Except.ok (some k))
    (hm : env.env_manager = some m)
    (h1 : k ∉ d.reported_environments) :
    report_environment d env =
      Except.ok
        ((report_environment_manager
            { d with reported_environments :=
                hashSetInsert d.reported_environments k } m).1,
         Envelope.environmentMsg env ::
           (report_environment_manager
             { d with reported_environments :=
                 hashSetInsert d.reported_environments k } m).2) := by
  unfold report_environment
  rw [hk]
  simp only [hm, if_neg h1, List.singleton_append]

theorem report_environment_seen_key_with_manager {d : JsonRpcDispatcher}
    {env : PythonEnvironment} {k : String} {m : EnvManager}
    (hk : get_environment_key env = Except.ok (some k))
    (hm : env.env_manager = some m)
    (h1 : k ∈ d.reported_environments) :
    report_environment d env =
      Except.ok (report_environment_manager d m) := by
  unfold report_environment
  rw [hk]
  simp only [hm, if_pos h1, List.nil_append]

theorem countManagerKeyMsgs_append (k : String) (a b : List Envelope) :
    countManagerKeyMsgs k (a ++ b) =
      countManagerKeyMsgs k a + countManagerKeyMsgs k b := by
  simp [countManagerKeyMsgs, List.countP_append]

theorem runManagers_countKey (k : String) :
    ∀ (ms : List EnvManager) (d : JsonRpcDispatcher),
      countManagerKeyMsgs k (runManagers d ms).2 =
        if k ∈ d.reported_managers then 0
        else if ms.any (fun m => decide (get_manager_key m = some k))
          then 1 else 0 := by
  intro ms
  induction ms with
  | nil =>
    intro d
    simp [runManagers, countManagerKeyMsgs]
  | cons m ms ih =>
    intro d
    show countManagerKeyMsgs k
        ((report_environment_manager d m).2 ++
          (runManagers (report_environment_manager d m).1 ms).2) = _
    rw [countManagerKeyMsgs_append]
    cases hgk : get_manager_key m with
    | none =>
      rw [report_manager_key_none hgk]
      rw [ih d]
      simp [List.any_cons, hgk, countManagerKeyMsgs]
    | some km =>
      by_cases hmem : km ∈ d.reported_managers
      · rw [report_manager_key_seen hgk hmem]
        rw [ih d]
        by_cases hkd : k ∈ d.reported_managers
        · simp [hkd, countManagerKeyMsgs]
        · have hne : km ≠ k := by
            intro h
            exact hkd (h ▸ hmem)
          simp [hkd, countManagerKeyMsgs, List.any_cons, hgk, hne]
      · rw [report_manager_key_new hgk hmem]
        rw [ih]
        by_cases hke : km = k
        · subst hke
          have hmem2 : km ∈ hashSetInsert d.reported_managers km :=
            mem_hashSetInsert_self _ _
          simp [countManagerKeyMsgs, isManagerKeyMsg, hgk, hmem2, hmem,
            List.any_cons]
        · have hmem2 : (k ∈ hashSetInsert d.reported_managers km) ↔
              (k ∈ d.reported_managers) := by
            simp only [mem_hashSetInsert]
            exact ⟨fun h => h.elim (fun h => absurd h.symm hke) id, Or.inr⟩
          by_cases hkd : k ∈ d.reported_managers
          · simp [hmem2, hkd, countManagerKeyMsgs, isManagerKeyMsg, hgk, hke]
          · simp [hmem2, hkd, countManagerKeyMsgs, isManagerKeyMsg, hgk, hke,
              List.any_cons]

theorem utf8EncodeChar_length (c : Char) :
    (utf8EncodeChar c).length = c.utf8Size := by
  have e1 : (c.val ≤ UInt32.ofNatCore 0x7F (by decide)) ↔
      c.toNat ≤ 0x7F := Iff.rfl
  have e2 : (c.val ≤ UInt32.ofNatCore 0x7FF (by decide)) ↔
      c.toNat ≤ 0x7FF := Iff.rfl
  have e3 : (c.val ≤ UInt32.ofNatCore 0xFFFF (by decide)) ↔
      c.toNat ≤ 0xFFFF := Iff.rfl
  unfold utf8EncodeChar Char.utf8Size
  by_cases h1 : c.toNat ≤ 0x7F
  · rw [if_pos h1, if_pos (e1.mpr h1)]
    rfl
  · rw [if_neg h1, if_neg (fun h => h1 (e1.mp h))]
    by_cases h2 : c.toNat ≤ 0x7FF
    · rw [if_pos h2, if_pos (e2.mpr h2)]
      rfl
    · rw [if_neg h2, if_neg (fun h => h2 (e2.mp h))]
      by_cases h3 : c.toNat ≤ 0xFFFF
      · rw [if_pos h3, if_pos (e3.mpr h3)]
        rfl
      · rw [if_neg h3, if_neg (fun h => h3 (e3.mp h))]
        rfl

theorem utf8Encode_length (s : String) :
    (utf8Encode s).length = s.utf8ByteSize := by
  cases s with
  | mk data =>
    show (data.foldr (fun c acc => utf8EncodeChar c ++ acc) []).length =
      String.utf8ByteSize.go data
    induction data with
    | nil => rfl
    | cons c cs ih =>
      show (utf8EncodeChar c ++
        cs.foldr (fun c acc => utf8EncodeChar c ++ acc) []).length = _
      rw [List.length_append, ih, utf8EncodeChar_length]
      show _ = String.utf8ByteSize.go cs + c.utf8Size
      omega

/-! ## Claim theorems -/

/-- Claim C1 (code bug evaluation): for the concrete environment whose
interpreter path is unset and whose environment root is present but not
UTF-8-representable, `get_environment_key` and hence `report_environment`
panic (`Except.error`) instead of dropping the report silently: the
`unwrap()` in the environment-root branch contradicts the silent-drop
policy that the `?`-based sibling branches implement. -/
theorem c1_env_root_non_utf8_panics :
    get_environment_key c1FailingEnv = Except.error () ∧
      report_environment create_dispatcher c1FailingEnv =
        Except.error () ∧
      report_environment_manager create_dispatcher
          { executable_path := OsPath.nonUtf8 3, version := none,
            tool := EnvManagerType.Conda } =
        (create_dispatcher, []) := by
  refine ⟨rfl, rfl, ?_⟩
  rfl

/-- Claim C7: an environment with both the interpreter path and the
environment root unset has no identity key; `report_environment` returns
successfully, emits no envelope (neither environment nor manager, even
when an owning manager is set), and leaves the dispatcher unchanged. -/
theorem c7_keyless_environment_is_noop (d : JsonRpcDispatcher)
    (env : PythonEnvironment)
    (h1 : env.python_executable_path = none)
    (h2 : env.env_path = none) :
    report_environment d env = Except.ok (d, []) := by
  unfold report_environment get_environment_key
  rw [h1, h2]

/-- Witness for C7 at a concrete keyless environment carrying an owning
manager, from the fresh dispatcher. -/
theorem c7_witness :
    c7Env.python_executable_path = none ∧
      c7Env.env_path = none ∧
      report_environment create_dispatcher c7Env =
        Except.ok (create_dispatcher, []) :=
  ⟨rfl, rfl, c7_keyless_environment_is_noop create_dispatcher c7Env rfl rfl⟩

/-- Claim C9: `exit` emits exactly one termination envelope per call,
unconditionally and independently of dispatcher state, mutates neither
key set, and calling it twice emits two termination envelopes. -/
theorem c9_exit_unconditional :
    ∀ d : JsonRpcDispatcher,
      exit d = (d, [Envelope.exitMsg]) ∧
        (exit d).2 ++ (exit (exit d).1).2 =
          [Envelope.exitMsg, Envelope.exitMsg] ∧
        countEnvironmentMsgs (exit d).2 = 0 ∧
        countManagerMsgs (exit d).2 = 0 := by
  intro d
  exact ⟨rfl, rfl, rfl, rfl⟩

/-- Claim C10: when the interpreter path is present but not
UTF-8-representable, the environment key is absent (no fallback to the
environment root, even when that root is representable), so
`report_environment` drops the environment entirely: no envelope, no
manager cascade, no state change. -/
theorem c10_non_utf8_interpreter_no_fallback (d : JsonRpcDispatcher)
    (env : PythonEnvironment) (p : OsPath)
    (hp : env.python_executable_path = some p)
    (hs : p.to_str = none) :
    get_environment_key env = Except.ok none ∧
      report_environment d env = Except.ok (d, []) := by
  constructor
  · simp [get_environment_key, hp, hs]
  · simp [report_environment, get_environment_key, hp, hs]

/-- Witness for C10 at a concrete environment with a non-representable
interpreter path, a representable environment root and an owning
manager. -/
theorem c10_witness :
    c10Env.python_executable_path = some (OsPath.nonUtf8 7) ∧
      (OsPath.nonUtf8 7).to_str = none ∧
      get_environment_key c10Env = Except.ok none ∧
      report_environment create_dispatcher c10Env =
        Except.ok (create_dispatcher, []) := by
  refine ⟨rfl, rfl, ?_⟩
  exact c10_non_utf8_interpreter_no_fallback create_dispatcher c10Env
    (OsPath.nonUtf8 7) rfl rfl

/-- Claim C4: for an environment with a derivable identity key and an
owning manager, the manager is forwarded on every `report_environment`
call: two calls from a state where neither key is known produce exactly
one environment envelope and exactly one manager envelope in total, and
from any state that already knows the environment key but not the
manager key, a call emits no environment envelope yet still emits the
manager envelope. -/
theorem c4_manager_cascade (d : JsonRpcDispatcher)
    (env : PythonEnvironment) (k : String) (m : EnvManager) (km : String)
    (hk : get_environment_key env = Except.ok (some k))
    (hm : env.env_manager = some m)
    (hkm : get_manager_key m = some km)
    (h1 : k ∉ d.reported_environments)
    (h2 : km ∉ d.reported_managers) :
    ∃ (d1 d2 : JsonRpcDispatcher) (msgs1 msgs2 : List Envelope),
      report_environment d env = Except.ok (d1, msgs1) ∧
      report_environment d1 env = Except.ok (d2, msgs2) ∧
      countEnvironmentMsgs (msgs1 ++ msgs2) = 1 ∧
      countManagerMsgs (msgs1 ++ msgs2) = 1 ∧
      msgs2 = [] ∧
      (∀ d3 : JsonRpcDispatcher,
          k ∈ d3.reported_environments →
          km ∉ d3.reported_managers →
          report_environment d3 env =
            Except.ok
              ({ d3 with reported_managers :=
                   hashSetInsert d3.reported_managers km },
               [Envelope.managerMsg m])) := by
  refine ⟨⟨hashSetInsert d.reported_managers km,
            hashSetInsert d.reported_environments k⟩,
          ⟨hashSetInsert d.reported_managers km,
            hashSetInsert d.reported_environments k⟩,
          [Envelope.environmentMsg env, Envelope.managerMsg m], [],
          ?_, ?_, rfl, rfl, rfl, ?_⟩
  · rw [report_environment_new_key_with_manager hk hm h1,
      @report_manager_key_new
        ⟨d.reported_managers, hashSetInsert d.reported_environments k⟩
        m km hkm h2]
  · rw [report_environment_seen_key_with_manager hk hm
      (mem_hashSetInsert_self d.reported_environments k),
      @report_manager_key_seen
        ⟨hashSetInsert d.reported_managers km,
          hashSetInsert d.reported_environments k⟩
        m km hkm (mem_hashSetInsert_self d.reported_managers km)]
  · intro d3 h3 h4
    rw [report_environment_seen_key_with_manager hk hm h3,
      report_manager_key_new hkm h4]

/-- Witness for C4: the conda environment `sampleEnv` with owning
manager `sampleManager`, reported twice from the fresh dispatcher. -/
theorem c4_witness :
    ∃ (d1 d2 : JsonRpcDispatcher) (msgs1 msgs2 : List Envelope),
      report_environment create_dispatcher sampleEnv =
        Except.ok (d1, msgs1) ∧
      report_environment d1 sampleEnv = Except.ok (d2, msgs2) ∧
      countEnvironmentMsgs (msgs1 ++ msgs2) = 1 ∧
      countManagerMsgs (msgs1 ++ msgs2) = 1 ∧
      msgs2 = [] ∧
      (∀ d3 : JsonRpcDispatcher,
          "/opt/env/bin/python" ∈ d3.reported_environments →
          "/usr/bin/conda" ∉ d3.reported_managers →
          report_environment d3 sampleEnv =
            Except.ok
              ({ d3 with reported_managers :=
                   hashSetInsert d3.reported_managers "/usr/bin/conda" },
               [Envelope.managerMsg sampleManager])) :=
  c4_manager_cascade create_dispatcher sampleEnv "/opt/env/bin/python"
    sampleManager "/usr/bin/conda" rfl rfl rfl (by decide) (by decide)

/-- Claim C5: manager reporting is idempotent per identity key: for two
managers with equal location (hence equal key) occurring in a sequence
of `report_environment_manager` calls, the sequence emits exactly one
manager envelope for that key when the key starts unreported, and any
call whose key is already recorded is a no-op. -/
theorem c5_report_manager_idempotent (d : JsonRpcDispatcher)
    (ms : List EnvManager) (m1 m2 : EnvManager) (k : String)
    (h1 : m1 ∈ ms) (h2 : m2 ∈ ms)
    (heq : m1.executable_path = m2.executable_path)
    (hk : get_manager_key m1 = some k)
    (hnew : k ∉ d.reported_managers) :
    countManagerKeyMsgs k (runManagers d ms).2 = 1 ∧
      (∀ (d3 : JsonRpcDispatcher) (m3 : EnvManager),
          get_manager_key m3 = some k →
          k ∈ d3.reported_managers →
          report_environment_manager d3 m3 = (d3, [])) := by
  constructor
  · rw [runManagers_countKey]
    rw [if_neg hnew]
    have hany : ms.any (fun m => decide (get_manager_key m = some k)) =
        true :=
      List.any_eq_true.mpr ⟨m1, h1, by simp [hk]⟩
    rw [hany]
    rfl
  · intro d3 m3 h3 hmem
    exact report_manager_key_seen h3 hmem

/-- Witness for C5: two managers at the same conda location with
different versions, reported in sequence from the fresh dispatcher. -/
theorem c5_witness :
    countManagerKeyMsgs "/usr/bin/conda"
        (runManagers create_dispatcher
          [sampleManager, sampleManagerVariant]).2 = 1 ∧
      (∀ (d3 : JsonRpcDispatcher) (m3 : EnvManager),
          get_manager_key m3 = some "/usr/bin/conda" →
          "/usr/bin/conda" ∈ d3.reported_managers →
          report_environment_manager d3 m3 = (d3, [])) :=
  c5_report_manager_idempotent create_dispatcher
    [sampleManager, sampleManagerVariant] sampleManager
    sampleManagerVariant "/usr/bin/conda" (by decide) (by decide) rfl rfl
    (by decide)

/-- Claim C6: `was_environment_reported` is a pure lookup — it takes the
dispatcher immutably and returns a `Bool`, touching no state.  It is
`false` when the probe path is not UTF-8-representable, `false` on the
fresh dispatcher, equivalent to membership of the probe path text in
the environment key set, and `true` once a matching
`report_environment` has completed. -/
theorem c6_was_environment_reported :
    (∀ (d : JsonRpcDispatcher) (probe : PythonEnv),
        probe.executable.to_str = none →
        was_environment_reported d probe = false) ∧
      (∀ probe : PythonEnv,
          was_environment_reported create_dispatcher probe = false) ∧
      (∀ (d : JsonRpcDispatcher) (probe : PythonEnv) (k : String),
          probe.executable.to_str = some k →
          (was_environment_reported d probe = true ↔
            k ∈ d.reported_environments)) ∧
      (∀ (d : JsonRpcDispatcher) (env : PythonEnvironment) (k : String)
          (probe : PythonEnv) (d1 : JsonRpcDispatcher)
          (msgs : List Envelope),
          get_environment_key env = Except.ok (some k) →
          probe.executable.to_str = some k →
          report_environment d env = Except.ok (d1, msgs) →
          was_environment_reported d1 probe = true) := by
  refine ⟨?_, ?_, ?_, ?_⟩
  · intro d probe h
    simp [was_environment_reported, h]
  · intro probe
    unfold was_environment_reported
    cases probe.executable.to_str with
    | some key => simp [create_dispatcher]
    | none => rfl
  · intro d probe k h
    simp [was_environment_reported, h]
  · intro d env k probe d1 msgs hk hp hrep
    have hmem : k ∈ d1.reported_environments :=
      report_environment_key_recorded hk hrep
    simp [was_environment_reported, hp, hmem]

/-- Witness for C6: a non-representable probe on the fresh dispatcher,
and the matching probe after reporting `sampleEnv`. -/
theorem c6_witness :
    was_environment_reported create_dispatcher
        { executable := OsPath.nonUtf8 5 } = false ∧
      was_environment_reported c8State
        { executable := OsPath.utf8 "/opt/env/bin/python" } = true :=
  ⟨c6_was_environment_reported.1 create_dispatcher
      { executable := OsPath.nonUtf8 5 } rfl,
    c6_was_environment_reported.2.2.2 create_dispatcher sampleEnv
      "/opt/env/bin/python"
      { executable := OsPath.utf8 "/opt/env/bin/python" } c8State c8Msgs
      rfl rfl rfl⟩

/-- Claim C8: the two dedup key sets only ever grow.
`report_environment_manager` and (on successful return)
`report_environment` map each key set to a superset; `exit` returns the
state unchanged; `was_environment_reported` consumes the dispatcher
immutably and returns only a `Bool`, so it cannot change either set. -/
theorem c8_key_sets_monotone :
    (∀ (d : JsonRpcDispatcher) (m : EnvManager),
        d.reported_managers ⊆
            (report_environment_manager d m).1.reported_managers ∧
          d.reported_environments ⊆
            (report_environment_manager d m).1.reported_environments) ∧
      (∀ (d : JsonRpcDispatcher) (env : PythonEnvironment)
          (d1 : JsonRpcDispatcher) (msgs : List Envelope),
          report_environment d env = Except.ok (d1, msgs) →
          d.reported_managers ⊆ d1.reported_managers ∧
            d.reported_environments ⊆ d1.reported_environments) ∧
      (∀ d : JsonRpcDispatcher, (exit d).1 = d) := by
  refine ⟨?_, ?_, ?_⟩
  · intro d m
    refine ⟨report_manager_mgrs_subset d m, ?_⟩
    rw [report_manager_envs_eq]
    exact fun _ h => h
  · intro d env d1 msgs h
    exact report_environment_monotone h
  · intro d
    rfl

/-- Witness for C8 at the concrete successful report of `sampleEnv`
from the fresh dispatcher. -/
theorem c8_witness :
    create_dispatcher.reported_managers ⊆ c8State.reported_managers ∧
      create_dispatcher.reported_environments ⊆
        c8State.reported_environments :=
  c8_key_sets_monotone.2.1 create_dispatcher sampleEnv c8State c8Msgs rfl

/-- Claim C2 counterexample: the serialized `envManager` envelope for a
manager whose optional `version` is absent contains the explicit
placeholder `"version":null` — the absent field is not omitted — and
the serialized `exit` envelope contains `"params":null` rather than an
absent/empty `params`. -/
theorem c2_counterexample :
    serializeEnvManagerMessage sampleManager =
      some "\x7b\"jsonrpc\":\"2.0\",\"method\":\"envManager\",\"params\":\x7b\"executablePath\":\"/usr/bin/conda\",\"version\":null,\"tool\":\"conda\"\x7d\x7d" ∧
      containsSubstring
        "\x7b\"jsonrpc\":\"2.0\",\"method\":\"envManager\",\"params\":\x7b\"executablePath\":\"/usr/bin/conda\",\"version\":null,\"tool\":\"conda\"\x7d\x7d"
        "\"version\":null" = true ∧
      containsSubstring serializeExitMessage "\"params\":null" = true := by
  refine ⟨rfl, rfl, rfl⟩

/-- Claim C2 as amended: in every serialized envelope body, optional
fields whose value is absent are emitted with an explicit `null`
placeholder (not omitted), and the `exit` method's `params` field is
present with value `null`. -/
theorem c2_absent_fields_serialize_as_null :
    (∀ (s : String) (t : EnvManagerType),
        serializeEnvManager
            { executable_path := OsPath.utf8 s, version := none,
              tool := t } =
          some ("\x7b\"executablePath\":" ++ jsonStr s ++ ",\"version\":" ++
            "null" ++ ",\"tool\":" ++ serializeTool t ++ "\x7d")) ∧
      (∀ c : PythonEnvironmentCategory,
          serializePythonEnvironment
              { name := none, python_executable_path := none,
                category := c, version := none, env_path := none,
                sys_prefix_path := none, env_manager := none,
                python_run_command := none, project_path := none } =
            some ("\x7b\"name\":" ++ "null" ++
              ",\"pythonExecutablePath\":" ++ "null" ++
              ",\"category\":" ++ serializeCategory c ++
              ",\"version\":" ++ "null" ++
              ",\"envPath\":" ++ "null" ++
              ",\"sysPrefixPath\":" ++ "null" ++
              ",\"envManager\":" ++ "null" ++
              ",\"pythonRunCommand\":" ++ "null" ++
              ",\"projectPath\":" ++ "null" ++ "\x7d")) ∧
      serializeExitMessage =
        "\x7b\"jsonrpc\":\"2.0\",\"method\":\"exit\",\"params\":null\x7d" := by
  refine ⟨fun s t => rfl, fun c => rfl, rfl⟩

/-- Claim C3: the `Content-Length` value a frame declares is exactly the
UTF-8 byte length of the body that follows — the length of the body's
UTF-8 byte encoding, not its character count — for every body, and the
non-ASCII body `"π"` has declared length 2 while its character count
is 1. -/
theorem c3_content_length_is_utf8_byte_length :
    (∀ body : String,
        (send_message body).declared = (utf8Encode body).length ∧
          (send_message body).body = body ∧
          (send_message body).render =
            "Content-Length: " ++ toString ((utf8Encode body).length) ++
              "\r\nContent-Type: application/vscode-jsonrpc; charset=utf-8\r\n\r\n" ++
              body) ∧
      (send_message "π").declared = 2 ∧ ("π".length = 1) := by
  refine ⟨fun body => ⟨(utf8Encode_length body).symm, rfl, ?_⟩, ?_, ?_⟩
  · rw [utf8Encode_length body]
    rfl
  · decide
  · decide

end NativeLocator
